import Mathlib

/-!
Verification development for the process/port orchestration engine of the
Lowkey-Llama repository.  The definitions below are a shallow embedding of
the orchestration code in `src/src/core/orchestrator.py`,
`src/src/core/services.py`, `src/src/core/ui.py` and `src/src/launcher.py`.

OS-level effects (netstat/tasklist lookups, socket binds, process
termination, health probes) are modelled by explicit oracles passed in as
environment records: each oracle field records what the corresponding OS
query would have answered at that point of the run.  Every function returns,
next to its result, the list of externally visible actions (process
terminations, port sweeps, service stops) it performed, in order.
-/

namespace Services

/-- Outcome environment for `ServiceManager.start_all_services`
(`services.py` lines 782-812): the boolean outcome of each of the four
sequential phases (`ensure_ports_available`, `start_ollama`, `start_api`,
`start_ui`).  Each field abstracts the whole corresponding sub-call,
including its internal health wait. -/
structure StartEnv where
  portsOk : Bool
  ollamaOk : Bool
  apiOk : Bool
  uiOk : Bool

/-- Embedding of `ServiceManager.start_all_services`: the phases run in
order `ensure_ports_available`, `start_ollama`, `start_api`, `start_ui`;
the first failure aborts with `False` (after `stop_all_services` for the
api/ui phases, which is not part of the spawn trace).  The second component
is the list of services whose start (spawn) was invoked, in order. -/
def start_all_services (env : StartEnv) : Bool × List String :=
  if !env.portsOk then (false, [])
  else if !env.ollamaOk then (false, ["ollama"])
  else if !env.apiOk then (false, ["ollama", "api"])
  else if !env.uiOk then (false, ["ollama", "api", "ui"])
  else (true, ["ollama", "api", "ui"])

end Services

namespace Orchestrator

/-- Embedding of the step loop of `SystemOrchestrator.initialize`
(`orchestrator.py` lines 458-474): each `(name, ok)` pair is one entry of
the `steps` list together with the outcome of awaiting it; the loop runs the
steps in order and returns `False` at the first failing step (after
`cleanup`, not modelled in the trace).  The second component is the list of
step names actually attempted, in order. -/
def run_steps : List (String × Bool) → Bool × List String
  | [] => (true, [])
  | (name, ok) :: rest =>
      if ok then
        let r := run_steps rest
        (r.1, name :: r.2)
      else (false, [name])

/-- Outcomes of the four steps of `SystemOrchestrator.initialize`:
`ensure_dependencies`, `ensure_ollama`, `ensure_api_server`,
`ensure_ui_server`. -/
structure InitEnv where
  depsOk : Bool
  ollamaOk : Bool
  apiOk : Bool
  uiOk : Bool

/-- The `steps` list of `SystemOrchestrator.initialize`, in source order,
paired with the outcome of each step. -/
def init_steps (env : InitEnv) : List (String × Bool) :=
  [("Dependencies", env.depsOk), ("Ollama", env.ollamaOk),
   ("API Server", env.apiOk), ("UI Server", env.uiOk)]

/-- Embedding of `SystemOrchestrator.initialize`'s startup sequencing: runs
the four steps in order, stopping at the first failure.  `True` means the
run reached the ready state (the subsequent idle wait is not modelled). -/
def initialize_run (env : InitEnv) : Bool × List String :=
  run_steps (init_steps env)

end Orchestrator

/-- Claim C1: in the dependency order backend -> API -> UI, if service i's
startup step returns failure, then service i+1 is never spawned and the
whole initialization returns false.  Stated for both the
`ServiceManager.start_all_services` chain and the
`SystemOrchestrator.initialize` step loop. -/
theorem C1_no_spawn_after_failed_predecessor :
    (∀ env : Services.StartEnv,
      (env.ollamaOk = false →
        (Services.start_all_services env).1 = false ∧
        "api" ∉ (Services.start_all_services env).2 ∧
        "ui" ∉ (Services.start_all_services env).2) ∧
      (env.apiOk = false →
        (Services.start_all_services env).1 = false ∧
        "ui" ∉ (Services.start_all_services env).2)) ∧
    (∀ env : Orchestrator.InitEnv,
      (env.apiOk = false →
        (Orchestrator.initialize_run env).1 = false ∧
        "UI Server" ∉ (Orchestrator.initialize_run env).2) ∧
      (env.ollamaOk = false →
        (Orchestrator.initialize_run env).1 = false ∧
        "API Server" ∉ (Orchestrator.initialize_run env).2 ∧
        "UI Server" ∉ (Orchestrator.initialize_run env).2)) := by
  constructor
  · rintro ⟨p, o, a, u⟩
    cases p <;> cases o <;> cases a <;> cases u <;>
      exact ⟨fun h => by simp_all [Services.start_all_services],
             fun h => by simp_all [Services.start_all_services]⟩
  · rintro ⟨d, o, a, u⟩
    cases d <;> cases o <;> cases a <;> cases u <;>
      exact ⟨fun h => by
               simp_all [Orchestrator.initialize_run, Orchestrator.init_steps,
                 Orchestrator.run_steps],
             fun h => by
               simp_all [Orchestrator.initialize_run, Orchestrator.init_steps,
                 Orchestrator.run_steps]⟩

/-- Witness for C1: with the API phase failing (its probe never succeeds),
`start_all_services` returns false and the UI is never spawned. -/
theorem C1_witness :
    (false = false) ∧
    ((Services.start_all_services ⟨true, true, false, true⟩).1 = false ∧
      "ui" ∉ (Services.start_all_services ⟨true, true, false, true⟩).2) :=
  ⟨rfl, (C1_no_spawn_after_failed_predecessor.1 ⟨true, true, false, true⟩).2 rfl⟩

namespace Services

/-- Externally visible shutdown actions of `ServiceManager.stop_all_services`:
stopping a named service handle (`stop_service`) or sweeping a port via
`kill_process_on_port(port, force=True)`. -/
inductive StopAction where
  | stop (name : String)
  | sweep (port : Nat)
  deriving DecidableEq, Repr

/-- Order in which `ServiceManager.stop_all_services` (`services.py` lines
720-739) stops service handles: `"ui"` first when present, then every other
key of `self.processes` in its original insertion order (which is start
order), skipping `"ui"`. -/
def stop_order (ps : List String) : List String :=
  (if ps.contains "ui" then ["ui"] else []) ++ ps.filter (fun n => !(n == "ui"))

/-- The fixed port list swept at the end of `stop_all_services`. -/
def sweepPorts : List Nat := [11434, 8000, 8501]

/-- Embedding of `ServiceManager.stop_all_services`, given the keys of
`self.processes` in insertion (start) order: the emitted action sequence is
the service stops followed by one forced port sweep per fixed port. -/
def stop_all_services (ps : List String) : List StopAction :=
  (stop_order ps).map StopAction.stop ++ sweepPorts.map StopAction.sweep

/-- Discriminator for stop actions. -/
def isStop : StopAction → Bool
  | StopAction.stop _ => true
  | StopAction.sweep _ => false

/-- Discriminator for sweep actions. -/
def isSweep : StopAction → Bool
  | StopAction.stop _ => false
  | StopAction.sweep _ => true

end Services

namespace Orchestrator

/-- Externally visible actions of `SystemOrchestrator.cleanup`
(`orchestrator.py` lines 496-545). -/
inductive CleanupAction where
  | stopUi
  | stopApi
  | revisitPort (port : Nat)
  | removeStreamlitTempDirs
  deriving DecidableEq, Repr

/-- The configured ports record (`config.ports`). -/
structure PortsConfig where
  api : Nat
  ui : Nat
  deriving DecidableEq, Repr

/-- Embedding of `SystemOrchestrator.cleanup`: stop the UI server, then the
API server, then revisit the configured api and ui ports (each via
`_check_port`, which may itself kill a python occupant, followed by
`_kill_process_on_port` when the check succeeds), then remove the
`temp/streamlit_*` directories. -/
def cleanup_actions (cfg : PortsConfig) : List CleanupAction :=
  [CleanupAction.stopUi, CleanupAction.stopApi,
   CleanupAction.revisitPort cfg.api, CleanupAction.revisitPort cfg.ui,
   CleanupAction.removeStreamlitTempDirs]

end Orchestrator

/-- Claim C2 counterexample: for services started in order
[ollama, api, ui], `stop_all_services` stops them in the order
[ui, ollama, api] — the api handle is terminated after the ollama handle,
whereas the claim demands strict reverse start order (UI before API before
Ollama, i.e. [ui, api, ollama]).  The boolean conjunct records that the
emitted order is not the reverse of the start order. -/
theorem C2_counterexample :
    Services.stop_order ["ollama", "api", "ui"] = ["ui", "ollama", "api"] ∧
    (Services.stop_order ["ollama", "api", "ui"] ==
      ["ollama", "api", "ui"].reverse) = false ∧
    (Services.stop_order ["ollama", "api", "ui"]).indexOf "api" = 2 ∧
    (Services.stop_order ["ollama", "api", "ui"]).indexOf "ollama" = 1 := by
  decide

/-- Helper: filtering a pure stop block or a pure sweep block. -/
theorem filter_stop_block (l : List String) :
    (l.map Services.StopAction.stop).filter Services.isStop
      = l.map Services.StopAction.stop := by
  induction l with
  | nil => rfl
  | cons x xs ih => simp [Services.isStop, ih]

/-- Helper: sweep actions are discarded by the stop filter. -/
theorem filter_stop_sweep_block (l : List Nat) :
    (l.map Services.StopAction.sweep).filter Services.isStop = [] := by
  induction l with
  | nil => rfl
  | cons x xs ih => simp [Services.isStop, ih]

/-- Helper: stop actions are discarded by the sweep filter. -/
theorem filter_sweep_stop_block (l : List String) :
    (l.map Services.StopAction.stop).filter Services.isSweep = [] := by
  induction l with
  | nil => rfl
  | cons x xs ih => simp [Services.isSweep, ih]

/-- Helper: filtering a pure sweep block. -/
theorem filter_sweep_block (l : List Nat) :
    (l.map Services.StopAction.sweep).filter Services.isSweep
      = l.map Services.StopAction.sweep := by
  induction l with
  | nil => rfl
  | cons x xs ih => simp [Services.isSweep, ih]

/-- Claim C2 amended: shutdown stops the UI handle first (when present) and
then the remaining handles in their original start order — not strict
reverse order — as witnessed by the canonical run [ollama, api, ui]; all
handle stops precede all port sweeps, and the sweep block visits exactly
the fixed ports 11434, 8000, 8501, once each, via forced
`kill_process_on_port`.  `SystemOrchestrator.cleanup` stops the UI server
before the API server, then revisits only the configured api and ui ports,
and removes the run's `temp/streamlit_*` directories last. -/
theorem C2_shutdown_order_amended :
    Services.stop_all_services ["ollama", "api", "ui"] =
      [Services.StopAction.stop "ui", Services.StopAction.stop "ollama",
       Services.StopAction.stop "api", Services.StopAction.sweep 11434,
       Services.StopAction.sweep 8000, Services.StopAction.sweep 8501] ∧
    (∀ ps : List String,
      (Services.stop_all_services ps).filter Services.isStop ++
        (Services.stop_all_services ps).filter Services.isSweep
        = Services.stop_all_services ps) ∧
    (∀ ps : List String,
      (Services.stop_all_services ps).filter Services.isSweep
        = Services.sweepPorts.map Services.StopAction.sweep) ∧
    (∀ ps : List String, ps.contains "ui" = true →
      (Services.stop_order ps).head? = some "ui") ∧
    (∀ cfg : Orchestrator.PortsConfig,
      Orchestrator.cleanup_actions cfg =
        [Orchestrator.CleanupAction.stopUi, Orchestrator.CleanupAction.stopApi,
         Orchestrator.CleanupAction.revisitPort cfg.api,
         Orchestrator.CleanupAction.revisitPort cfg.ui,
         Orchestrator.CleanupAction.removeStreamlitTempDirs]) := by
  refine ⟨by decide, ?_, ?_, ?_, fun cfg => rfl⟩
  · intro ps
    simp [Services.stop_all_services, List.filter_append,
      filter_stop_block, filter_stop_sweep_block,
      filter_sweep_stop_block, filter_sweep_block]
  · intro ps
    simp [Services.stop_all_services, List.filter_append,
      filter_sweep_stop_block, filter_sweep_block]
  · intro ps h
    unfold Services.stop_order
    rw [h]
    rfl

/-- Witness for C2 amended: instantiating the ui-first conjunct on the
canonical process list. -/
theorem C2_amended_witness :
    (["ollama", "api", "ui"].contains "ui" = true) ∧
    (Services.stop_order ["ollama", "api", "ui"]).head? = some "ui" :=
  ⟨by decide, (C2_shutdown_order_amended.2.2.2.1 ["ollama", "api", "ui"]) (by decide)⟩

namespace Services

/-- Outcome of the startup wait loop of `ServiceManager.start_api`
(`services.py` lines 539-554): success on a health probe, a distinct
failure when the spawned process has exited, or timeout after the 30-poll
budget. -/
inductive WaitOutcome where
  | healthy
  | processDead
  | timeout
  deriving DecidableEq, Repr

/-- One iteration per poll of `start_api`'s wait loop, starting at poll
index `t` with `n` polls of budget left: probe health first
(`check_api_health`); if unhealthy, check `process.is_running()` and fail
with the distinct process-dead outcome when it is false; otherwise sleep
and continue.  Returns the outcome and the poll index at which the loop
returned (the budget boundary for timeout). -/
def apiWaitFrom (health alive : Nat → Bool) (t : Nat) : Nat → WaitOutcome × Nat
  | 0 => (WaitOutcome.timeout, t)
  | n + 1 =>
      if health t then (WaitOutcome.healthy, t)
      else if alive t then apiWaitFrom health alive (t + 1) n
      else (WaitOutcome.processDead, t)

/-- The wait loop of `ServiceManager.start_api`: 30 one-second polls
(`for attempt in range(30)`), polling `check_api_health` and
`process.is_running()` as modelled by the two oracles. -/
def start_api_wait (health alive : Nat → Bool) : WaitOutcome × Nat :=
  apiWaitFrom health alive 0 30

end Services

namespace Orchestrator

/-- Oracles available to the health wait of
`SystemOrchestrator.ensure_api_server` (`orchestrator.py` lines 324-345):
the outcome of `api_server.health_check()` at each poll, and whether the
underlying server process is still alive at each poll.  The source loop
has access to the process handle but consults only the health probe. -/
structure OrchApiEnv where
  health : Nat → Bool
  alive : Nat → Bool

/-- One iteration per poll of the `while time.time() - start_time < timeout`
loop of `ensure_api_server`, discretised to one poll per second of the
window: return success on the first healthy probe, otherwise sleep and poll
again until the window is exhausted.  No liveness check appears in the
loop body.  Returns the result and the poll index at which it returned. -/
def orchWaitFrom (health : Nat → Bool) (t : Nat) : Nat → Bool × Nat
  | 0 => (false, t)
  | n + 1 => if health t then (true, t) else orchWaitFrom health (t + 1) n

/-- The 30-second health wait of `ensure_api_server`, which polls only
`env.health`; `env.alive` is never consulted by the source loop. -/
def ensure_api_wait (env : OrchApiEnv) : Bool × Nat :=
  orchWaitFrom env.health 0 30

end Orchestrator

/-- Helper: if the process dies at poll `d` (alive exactly before `d`) and
no probe succeeds up to `d`, the `start_api` wait returns the distinct
process-dead outcome exactly at poll `d`. -/
theorem apiWaitFrom_dead (health : Nat → Bool) (d : Nat) :
    ∀ n t, t ≤ d → d < t + n → (∀ s, s ≤ d → health s = false) →
      Services.apiWaitFrom health (fun s => decide (s < d)) t n
        = (Services.WaitOutcome.processDead, d) := by
  intro n
  induction n with
  | zero => intro t ht hd _; omega
  | succ n ih =>
      intro t ht hd hh
      unfold Services.apiWaitFrom
      rw [hh t ht]
      simp only [Bool.false_eq_true, if_false]
      by_cases hlt : t < d
      · rw [decide_eq_true hlt]
        simp only [if_true]
        exact ih (t + 1) (by omega) (by omega) hh
      · have htd : t = d := by omega
        have : decide (t < d) = false := by
          simp [htd]
        rw [this]
        simp [htd]

/-- Helper: the `start_api` wait reports timeout only when every poll of
the window saw an unhealthy probe and a live process. -/
theorem apiWaitFrom_timeout (health alive : Nat → Bool) :
    ∀ n t, (Services.apiWaitFrom health alive t n).1 = Services.WaitOutcome.timeout →
      ∀ s, t ≤ s → s < t + n → health s = false ∧ alive s = true := by
  intro n
  induction n with
  | zero => intro t _ s hs hs'; omega
  | succ n ih =>
      intro t h s hs hs'
      unfold Services.apiWaitFrom at h
      by_cases hh : health t
      · rw [if_pos hh] at h
        exact absurd h (by simp)
      · rw [if_neg hh] at h
        by_cases ha : alive t
        · rw [if_pos ha] at h
          by_cases hst : s = t
          · subst hst
            exact ⟨by simpa using hh, by simpa using ha⟩
          · exact ih (t + 1) h s (by omega) (by omega)
        · rw [if_neg ha] at h
          exact absurd h (by simp)

/-- Claim C3 counterexample: a fake handle whose liveness flips to false at
poll 1 with a 30-poll window and a probe that never succeeds.  The wait
loop of `SystemOrchestrator.ensure_api_server` returns its failure only at
the end of the full 30-poll window (result `(false, 30)`), with no distinct
process-dead outcome — its result type has no such variant because the
source loop never consults liveness — whereas the claim requires a distinct
PROCESS_DEAD result immediately at the next poll (poll 1). -/
theorem C3_counterexample :
    Orchestrator.ensure_api_wait
        { health := fun _ => false, alive := fun t => decide (t < 1) }
      = (false, 30) ∧
    (Orchestrator.ensure_api_wait
        { health := fun _ => false, alive := fun t => decide (t < 1) }
      = Orchestrator.ensure_api_wait
        { health := fun _ => false, alive := fun _ => true }) := by
  constructor
  · rfl
  · rfl

/-- Claim C3 amended: `ServiceManager.start_api`'s wait loop returns the
distinct process-dead failure at the first poll after the process exits,
before the 30-poll deadline, and reports timeout only when every poll of
the window saw an unhealthy probe with the process still alive; the wait
loop of `SystemOrchestrator.ensure_api_server`, by contrast, consults only
the health probe, so its outcome is unchanged under any change of process
liveness and it can only time out when no probe succeeds. -/
theorem C3_health_wait_amended :
    (∀ (health : Nat → Bool) (d : Nat), d < 30 →
      (∀ s, s ≤ d → health s = false) →
      Services.start_api_wait health (fun s => decide (s < d))
        = (Services.WaitOutcome.processDead, d)) ∧
    (∀ health alive,
      (Services.start_api_wait health alive).1 = Services.WaitOutcome.timeout →
      ∀ s, s < 30 → health s = false ∧ alive s = true) ∧
    (∀ e e' : Orchestrator.OrchApiEnv, e.health = e'.health →
      Orchestrator.ensure_api_wait e = Orchestrator.ensure_api_wait e') := by
  refine ⟨?_, ?_, ?_⟩
  · intro health d hd hh
    exact apiWaitFrom_dead health d 30 0 (by omega) (by omega) hh
  · intro health alive h s hs
    exact apiWaitFrom_timeout health alive 30 0 h s (by omega) (by omega)
  · intro e e' h
    unfold Orchestrator.ensure_api_wait
    rw [h]

/-- Witness for C3 amended: the fake handle of the spec's test (death at
poll 1, probe never succeeds, 30-poll window) makes `start_api`'s wait
return the process-dead outcome at poll 1. -/
theorem C3_amended_witness :
    (1 < 30 ∧ ∀ s : Nat, s ≤ 1 → (fun _ : Nat => false) s = false) ∧
    Services.start_api_wait (fun _ => false) (fun s => decide (s < 1))
      = (Services.WaitOutcome.processDead, 1) :=
  ⟨⟨by omega, fun _ _ => rfl⟩,
   C3_health_wait_amended.1 (fun _ => false) 1 (by omega) (fun _ _ => rfl)⟩

namespace Orchestrator

/-- Termination actions issued by `SystemOrchestrator._kill_process_on_port`
(`orchestrator.py` lines 613-712): a graceful PowerShell `Stop-Process` on a
PID, a forced `Stop-Process -Force` on a PID, or one command of the zombie
escalation ladder, recorded by its index 0-9 in source order together with
the resolved PID and the port the command template is instantiated with.
The ladder commands are, in order: 0 `Stop-Process -Id {pid} -Force`,
1 `Get-NetTCPConnection -LocalPort {port} | ... Stop-Process -Force`,
2 `taskkill /F /PID {pid}`, 3 `taskkill /F /T /PID {pid}`,
4-5 `netsh ... excludedportrange` delete/add on the port,
6-7 `Set-NetTCPSetting` autotuning toggles, 8 `netsh winsock reset`,
9 `netsh int ip reset`. -/
inductive KillAction where
  | graceful (pid : Nat)
  | force (pid : Nat)
  | zombieCmd (pid : Nat) (port : Nat) (idx : Nat)
  deriving DecidableEq, Repr

/-- What a kill action can affect.  `resolvedPid` names exactly the PID
resolved for the port; `resolvedPidTree` is that PID plus its transitive
child processes (`taskkill /T`); `currentPortOwners` is whatever processes
the OS reports as owning the port at the moment the command runs
(`Get-NetTCPConnection -LocalPort {port} | Stop-Process`), which need not
be the resolved PID; `networkStack` covers the netsh/Set-NetTCPSetting
commands, which target kernel network state rather than a process. -/
inductive KillTarget where
  | resolvedPid (pid : Nat)
  | resolvedPidTree (pid : Nat)
  | currentPortOwners (port : Nat)
  | networkStack
  deriving DecidableEq, Repr

/-- The target of each kill action, following the source command templates:
the graceful and forced `Stop-Process -Id {pid}` of the normal path name
the resolved PID; on the zombie ladder, command 1 pipes the port's current
owners into `Stop-Process`, command 3 is the tree kill
`taskkill /F /T /PID {pid}`, commands 0 and 2 name the resolved PID, and
commands 4-9 act on the network stack. -/
def killActionTarget : KillAction → KillTarget
  | KillAction.graceful p => KillTarget.resolvedPid p
  | KillAction.force p => KillTarget.resolvedPid p
  | KillAction.zombieCmd p port idx =>
      match idx with
      | 0 => KillTarget.resolvedPid p
      | 1 => KillTarget.currentPortOwners port
      | 2 => KillTarget.resolvedPid p
      | 3 => KillTarget.resolvedPidTree p
      | _ => KillTarget.networkStack

/-- Oracle environment for `_kill_process_on_port`: the result of the
initial `_get_process_on_port(port)` resolution (PID and process name for
that exact port, or none), and, for the k-th occupancy re-check performed
after a termination command, whether `_get_process_on_port` still reports
an occupant. -/
structure KillEnv where
  procInfo : Option (Nat × String)
  occupiedAfter : Nat → Bool

/-- The zombie escalation ladder of `_kill_process_on_port`: for each of
the ten commands in turn (each recorded with its index, whose semantics —
including the port-owner pipe kill at index 1 and the child-tree kill at
index 3, both reaching beyond the resolved PID — is given by
`killActionTarget`), run the command and re-check the port; return true at
the first re-check that finds the port unoccupied; give up with false after
all ten.  `idxs` enumerates the remaining command indices, which double as
re-check indices since each command is followed by exactly one re-check. -/
def runZombie (pid port : Nat) (occ : Nat → Bool) : List Nat → Bool × List KillAction
  | [] => (false, [])
  | i :: rest =>
      if occ i then
        let r := runZombie pid port occ rest
        (r.1, KillAction.zombieCmd pid port i :: r.2)
      else (true, [KillAction.zombieCmd pid port i])

/-- The normal-process loop of `_kill_process_on_port`: up to `n` attempts,
each issuing a graceful kill followed by an occupancy re-check (index `k`),
then, if still occupied, a forced kill followed by another re-check (index
`k+1`); success is reported only from a re-check that finds the port
unoccupied, failure after all attempts. -/
def runNormal (pid : Nat) (occ : Nat → Bool) : Nat → Nat → Bool × List KillAction
  | 0, _ => (false, [])
  | n + 1, k =>
      if occ k then
        if occ (k + 1) then
          let r := runNormal pid occ n (k + 2)
          (r.1, KillAction.graceful pid :: KillAction.force pid :: r.2)
        else (true, [KillAction.graceful pid, KillAction.force pid])
      else (true, [KillAction.graceful pid])

/-- Embedding of `SystemOrchestrator._kill_process_on_port`: resolve the
occupant of the port; with no occupant return true at once with no actions;
a `"ZOMBIE"` occupant goes through the ten-command escalation ladder; any
other occupant goes through the three-attempt graceful/forced loop. -/
def kill_process_on_port (port : Nat) (env : KillEnv) : Bool × List KillAction :=
  match env.procInfo with
  | none => (true, [])
  | some (pid, name) =>
      if name = "ZOMBIE" then runZombie pid port env.occupiedAfter (List.range 10)
      else runNormal pid env.occupiedAfter 3 0

end Orchestrator

namespace Services

/-- Termination actions issued by `ServiceManager.kill_process_on_port`
(`services.py` lines 234-303): killing the resolved process together with
its recursive children (the port-8501 streamlit path), a graceful
`terminate()`, or a forced `kill()`. -/
inductive SvcAction where
  | killTree (pid : Nat)
  | terminate (pid : Nat)
  | forceKill (pid : Nat)
  deriving DecidableEq, Repr

/-- Oracle environment for `ServiceManager.kill_process_on_port`: the PID
resolved from the netstat/lsof lookup for the port (none when the lookup
finds no occupant, which the source reaches as an empty/failing command and
turns into `return False`), and whether the process exits within the
five-second `wait` that follows `terminate()`. -/
structure SvcKillEnv where
  procInfo : Option Nat
  terminateWorks : Bool

/-- Embedding of `ServiceManager.kill_process_on_port`: with no resolved
occupant it returns false; for port 8501 it kills the resolved process tree
and returns true; otherwise it terminates the resolved PID, escalates to
`kill()` only when the wait times out and `force` is set, and returns true
in every case — the source performs no occupancy re-check after any of its
termination paths. -/
def kill_process_on_port (port : Nat) (force : Bool) (env : SvcKillEnv) :
    Bool × List SvcAction :=
  match env.procInfo with
  | none => (false, [])
  | some pid =>
      if port = 8501 then (true, [SvcAction.killTree pid])
      else if env.terminateWorks then (true, [SvcAction.terminate pid])
      else if force then (true, [SvcAction.terminate pid, SvcAction.forceKill pid])
      else (true, [SvcAction.terminate pid])

end Services

/-- Helper: the normal-process loop reports success only if some occupancy
re-check found the port free. -/
theorem runNormal_false_of_all_occupied (pid : Nat) (occ : Nat → Bool)
    (hocc : ∀ k, occ k = true) :
    ∀ n k, (Orchestrator.runNormal pid occ n k).1 = false := by
  intro n
  induction n with
  | zero => intro k; rfl
  | succ n ih =>
      intro k
      unfold Orchestrator.runNormal
      rw [hocc k, hocc (k + 1)]
      simp [ih (k + 2)]

/-- Helper: the zombie ladder reports success only if some occupancy
re-check found the port free. -/
theorem runZombie_false_of_all_occupied (pid port : Nat) (occ : Nat → Bool)
    (hocc : ∀ k, occ k = true) :
    ∀ idxs, (Orchestrator.runZombie pid port occ idxs).1 = false := by
  intro idxs
  induction idxs with
  | nil => rfl
  | cons i rest ih =>
      unfold Orchestrator.runZombie
      rw [hocc i]
      simp [ih]

/-- Helper: every action of the normal-process loop targets exactly the
resolved PID (the loop issues only `Stop-Process -Id {pid}` variants). -/
theorem runNormal_actions_target (pid : Nat) (occ : Nat → Bool) :
    ∀ n k a, a ∈ (Orchestrator.runNormal pid occ n k).2 →
      Orchestrator.killActionTarget a = Orchestrator.KillTarget.resolvedPid pid := by
  intro n
  induction n with
  | zero => intro k a h; simp [Orchestrator.runNormal] at h
  | succ n ih =>
      intro k a h
      unfold Orchestrator.runNormal at h
      by_cases h1 : occ k
      · rw [if_pos h1] at h
        by_cases h2 : occ (k + 1)
        · rw [if_pos h2] at h
          simp only [List.mem_cons] at h
          rcases h with h | h | h
          · subst h; rfl
          · subst h; rfl
          · exact ih (k + 2) a h
        · rw [if_neg h2] at h
          simp only [List.mem_cons, List.mem_singleton] at h
          rcases h with h | h | h
          · subst h; rfl
          · subst h; rfl
          · simp at h
      · rw [if_neg h1] at h
        simp only [List.mem_singleton] at h
        subst h; rfl

/-- Helper: every action of the zombie ladder is one of the ten ladder
commands instantiated with the resolved PID and the port. -/
theorem runZombie_actions_shape (pid port : Nat) (occ : Nat → Bool) :
    ∀ idxs a, a ∈ (Orchestrator.runZombie pid port occ idxs).2 →
      ∃ i, a = Orchestrator.KillAction.zombieCmd pid port i := by
  intro idxs
  induction idxs with
  | nil => intro a h; simp [Orchestrator.runZombie] at h
  | cons i rest ih =>
      intro a h
      unfold Orchestrator.runZombie at h
      by_cases h1 : occ i
      · rw [if_pos h1] at h
        simp only [List.mem_cons] at h
        rcases h with h | h
        · exact ⟨i, h⟩
        · exact ih a h
      · rw [if_neg h1] at h
        simp only [List.mem_singleton] at h
        exact ⟨i, h⟩

/-- Helper: each ladder command targets the resolved PID, the port's
current owners, the resolved PID's child tree, or the network stack,
depending on its index. -/
theorem zombieCmd_target_cases (pid port idx : Nat) :
    Orchestrator.killActionTarget (Orchestrator.KillAction.zombieCmd pid port idx)
        = Orchestrator.KillTarget.resolvedPid pid ∨
      Orchestrator.killActionTarget (Orchestrator.KillAction.zombieCmd pid port idx)
        = Orchestrator.KillTarget.currentPortOwners port ∨
      Orchestrator.killActionTarget (Orchestrator.KillAction.zombieCmd pid port idx)
        = Orchestrator.KillTarget.resolvedPidTree pid ∨
      Orchestrator.killActionTarget (Orchestrator.KillAction.zombieCmd pid port idx)
        = Orchestrator.KillTarget.networkStack := by
  match idx with
  | 0 => exact Or.inl rfl
  | 1 => exact Or.inr (Or.inl rfl)
  | 2 => exact Or.inl rfl
  | 3 => exact Or.inr (Or.inr (Or.inl rfl))
  | n + 4 => exact Or.inr (Or.inr (Or.inr rfl))

/-- Claim C4 counterexample: on port 8000 occupied by resolved PID 42 whose
process survives `terminate()` (the five-second wait times out), with
`force=False`, `ServiceManager.kill_process_on_port` reports success after
the lone `terminate` action: it returns true on the basis of having issued
a kill command alone, performing no occupancy re-check, while the process
is still alive. -/
theorem C4_counterexample :
    Services.kill_process_on_port 8000 false
        { procInfo := some 42, terminateWorks := false }
      = (true, [Services.SvcAction.terminate 42]) := by
  rfl

/-- Claim C4 amended: `SystemOrchestrator._kill_process_on_port` re-checks
the port's occupancy after every termination attempt and reports failure
whenever no re-check finds the port free — it never returns true on the
basis of having issued a kill alone; on the normal (non-zombie) path every
termination action names exactly the PID resolved for that exact port; on
the zombie escalation ladder every command is scoped to the resolved PID,
the port's current owners, the resolved PID's child tree, or the network
stack — and on a port that stays occupied the ladder really issues the
port-owner pipe kill (command 1) and the child-tree kill (command 3),
which can terminate processes other than the resolved PID.
`ServiceManager.kill_process_on_port`, by contrast, reports success
immediately after issuing its termination actions, with no re-check, even
when the process survived a non-forced terminate. -/
theorem C4_free_port_amended :
    (∀ port env pid name, env.procInfo = some (pid, name) →
      (∀ k, env.occupiedAfter k = true) →
      (Orchestrator.kill_process_on_port port env).1 = false) ∧
    (∀ port env pid name, env.procInfo = some (pid, name) → name ≠ "ZOMBIE" →
      ∀ a ∈ (Orchestrator.kill_process_on_port port env).2,
        Orchestrator.killActionTarget a
          = Orchestrator.KillTarget.resolvedPid pid) ∧
    (∀ port env pid, env.procInfo = some (pid, "ZOMBIE") →
      ∀ a ∈ (Orchestrator.kill_process_on_port port env).2,
        Orchestrator.killActionTarget a
            = Orchestrator.KillTarget.resolvedPid pid ∨
          Orchestrator.killActionTarget a
            = Orchestrator.KillTarget.currentPortOwners port ∨
          Orchestrator.killActionTarget a
            = Orchestrator.KillTarget.resolvedPidTree pid ∨
          Orchestrator.killActionTarget a
            = Orchestrator.KillTarget.networkStack) ∧
    ((Orchestrator.kill_process_on_port 7777
        { procInfo := some (99, "ZOMBIE"), occupiedAfter := fun _ => true }).2
      = (List.range 10).map (Orchestrator.KillAction.zombieCmd 99 7777) ∧
      Orchestrator.killActionTarget (Orchestrator.KillAction.zombieCmd 99 7777 1)
        = Orchestrator.KillTarget.currentPortOwners 7777 ∧
      Orchestrator.killActionTarget (Orchestrator.KillAction.zombieCmd 99 7777 3)
        = Orchestrator.KillTarget.resolvedPidTree 99) ∧
    (∀ port env pid, env.procInfo = some pid → env.terminateWorks = false →
      port ≠ 8501 →
      Services.kill_process_on_port port false env
        = (true, [Services.SvcAction.terminate pid])) := by
  refine ⟨?_, ?_, ?_, ⟨by decide, rfl, rfl⟩, ?_⟩
  · intro port env pid name hinfo hocc
    unfold Orchestrator.kill_process_on_port
    rw [hinfo]
    dsimp only
    by_cases hz : name = "ZOMBIE"
    · rw [if_pos hz]
      exact runZombie_false_of_all_occupied pid port env.occupiedAfter hocc _
    · rw [if_neg hz]
      exact runNormal_false_of_all_occupied pid env.occupiedAfter hocc 3 0
  · intro port env pid name hinfo hz a h
    unfold Orchestrator.kill_process_on_port at h
    rw [hinfo] at h
    dsimp only at h
    rw [if_neg hz] at h
    exact runNormal_actions_target pid env.occupiedAfter 3 0 a h
  · intro port env pid hinfo a h
    unfold Orchestrator.kill_process_on_port at h
    rw [hinfo] at h
    dsimp only at h
    rw [if_pos rfl] at h
    obtain ⟨i, rfl⟩ := runZombie_actions_shape pid port env.occupiedAfter _ a h
    exact zombieCmd_target_cases pid port i
  · intro port env pid hinfo hterm hport
    unfold Services.kill_process_on_port
    rw [hinfo]
    dsimp only
    rw [if_neg hport, hterm]
    rfl

/-- Witness for C4 amended: port 9000 held throughout by PID 7 named
"node.exe" — the orchestrator reaper re-checks after every attempt, never
observes the port free, and reports failure. -/
theorem C4_amended_witness :
    ((some (7, "node.exe") : Option (Nat × String)) = some (7, "node.exe") ∧
      ∀ k : Nat, (fun _ : Nat => true) k = true) ∧
    (Orchestrator.kill_process_on_port 9000
        { procInfo := some (7, "node.exe"), occupiedAfter := fun _ => true }).1
      = false :=
  ⟨⟨rfl, fun _ => rfl⟩,
   C4_free_port_amended.1 9000
     { procInfo := some (7, "node.exe"), occupiedAfter := fun _ => true }
     7 "node.exe" rfl (fun _ => rfl)⟩

/-- Claim C8 counterexample: on an already-free port (the netstat/lsof
lookup resolves no occupant), `ServiceManager.kill_process_on_port` returns
false, not true — the empty lookup falls through every return-true path —
so the claim's idempotent-true contract fails on this reaper. -/
theorem C8_counterexample :
    Services.kill_process_on_port 8000 false
        { procInfo := none, terminateWorks := true } = (false, []) ∧
    Services.kill_process_on_port 8000 true
        { procInfo := none, terminateWorks := true } = (false, []) := by
  exact ⟨rfl, rfl⟩

/-- Claim C8 amended: `SystemOrchestrator._kill_process_on_port` is
idempotent on a free port — whenever the port resolves to no occupant it
returns true immediately with no termination actions, so a second call in
the unchanged state returns true again — whereas
`ServiceManager.kill_process_on_port` returns false on an already-free
port. -/
theorem C8_idempotent_amended :
    (∀ port (occ : Nat → Bool),
      Orchestrator.kill_process_on_port port { procInfo := none, occupiedAfter := occ }
        = (true, [])) ∧
    (∀ port force t,
      Services.kill_process_on_port port force { procInfo := none, terminateWorks := t }
        = (false, [])) :=
  ⟨fun _ _ => rfl, fun _ _ _ => rfl⟩

namespace Orchestrator

/-- The fallback port list of `ensure_api_server` (`orchestrator.py` line
285). -/
def apiFallbackPorts : List Nat := [8001, 8002, 8003, 8004, 8005]

/-- The fallback port list of `ensure_ui_server` (`orchestrator.py` line
369). -/
def uiFallbackPorts : List Nat := [8502, 8503, 8504, 8505]

/-- Port resolution shared by `ensure_api_server` (lines 282-309) and
`ensure_ui_server` (lines 366-393): try the desired port first via
`_check_port`, then each fallback port in declared order, keeping the first
available one.  `avail p` is the outcome of `await self._check_port(p)`. -/
def resolve_port (desired : Nat) (fallbacks : List Nat) (avail : Nat → Bool) :
    Option Nat :=
  if avail desired then some desired
  else fallbacks.find? avail

/-- Embedding of the port-resolution head of `ensure_api_server`: on
success the resolved port (recorded into `config.ports.api`); on exhaustion
the function logs the fixed message "No available ports found" and returns
`False` (modelled as `none`).  The second component is the error log. -/
def ensure_api_server_ports (desired : Nat) (avail : Nat → Bool) :
    Option Nat × List String :=
  match resolve_port desired apiFallbackPorts avail with
  | some p => (some p, [])
  | none => (none, ["No available ports found"])

end Orchestrator

/-- Helper: a successful `find?` splits the list at the first satisfying
element, with everything before it failing the predicate. -/
theorem find?_first_decomp {α : Type} (p : α → Bool) :
    ∀ (l : List α) (a : α), l.find? p = some a →
      p a = true ∧ ∃ l₁ l₂, l = l₁ ++ a :: l₂ ∧ ∀ b ∈ l₁, p b = false := by
  intro l
  induction l with
  | nil => intro a h; simp [List.find?] at h
  | cons x xs ih =>
      intro a h
      rw [List.find?] at h
      by_cases hx : p x
      · rw [hx] at h
        injection h with h
        subst h
        exact ⟨hx, [], xs, rfl, by simp⟩
      · rw [Bool.not_eq_true] at hx
        rw [hx] at h
        obtain ⟨hp, l₁, l₂, hsplit, hfail⟩ := ih a h
        refine ⟨hp, x :: l₁, l₂, by rw [hsplit]; rfl, ?_⟩
        intro b hb
        rcases List.mem_cons.mp hb with hb | hb
        · subst hb; exact hx
        · exact hfail b hb

/-- Claim C5 counterexample: with the desired port and every fallback port
occupied and unreclaimable, `ensure_api_server` fails with the fixed
message "No available ports found": the message is identical for two runs
whose exhausted port lists differ (desired 8000 versus desired 9999) and
contains no digit at all, so it does not surface the exhausted port list
demanded by the claim. -/
theorem C5_counterexample :
    Orchestrator.ensure_api_server_ports 8000 (fun _ => false)
      = (none, ["No available ports found"]) ∧
    Orchestrator.ensure_api_server_ports 8000 (fun _ => false)
      = Orchestrator.ensure_api_server_ports 9999 (fun _ => false) ∧
    ("No available ports found".toList.filter Char.isDigit) = [] := by
  refine ⟨rfl, rfl, by decide⟩

/-- Claim C5 amended: port resolution attempts the desired port first and,
on conflict, each fallback port in declared order — a resolved port is
either the available desired port or the first available fallback, every
earlier fallback having been unavailable; when the desired port and every
fallback are occupied and unreclaimable the resolution yields none and
`ensure_api_server` returns false, not starting the service on any port,
but with the generic error "No available ports found" rather than one
surfacing the exhausted port list. -/
theorem C5_port_resolution_amended :
    (∀ desired fallbacks (avail : Nat → Bool) p,
      Orchestrator.resolve_port desired fallbacks avail = some p →
      (avail desired = true ∧ p = desired) ∨
      (avail desired = false ∧ avail p = true ∧
        ∃ l₁ l₂, fallbacks = l₁ ++ p :: l₂ ∧ ∀ q ∈ l₁, avail q = false)) ∧
    (∀ desired fallbacks (avail : Nat → Bool),
      avail desired = false → (∀ q ∈ fallbacks, avail q = false) →
      Orchestrator.resolve_port desired fallbacks avail = none) ∧
    (∀ desired (avail : Nat → Bool),
      Orchestrator.resolve_port desired Orchestrator.apiFallbackPorts avail = none →
      Orchestrator.ensure_api_server_ports desired avail
        = (none, ["No available ports found"])) := by
  refine ⟨?_, ?_, ?_⟩
  · intro desired fallbacks avail p h
    unfold Orchestrator.resolve_port at h
    by_cases hd : avail desired
    · rw [if_pos hd] at h
      injection h with h
      exact Or.inl ⟨hd, h.symm⟩
    · rw [if_neg hd] at h
      obtain ⟨hp, l₁, l₂, hsplit, hfail⟩ := find?_first_decomp avail fallbacks p h
      exact Or.inr ⟨by simpa using hd, hp, l₁, l₂, hsplit, hfail⟩
  · intro desired fallbacks avail hd hfb
    unfold Orchestrator.resolve_port
    rw [hd]
    simp only [Bool.false_eq_true, if_false]
    rw [List.find?_eq_none]
    intro q hq
    simp [hfb q hq]
  · intro desired avail h
    unfold Orchestrator.ensure_api_server_ports
    rw [h]

/-- Witness for C5 amended: desired port 8000 occupied, fallback 8001
occupied, fallback 8002 free — resolution lands on 8002, the first
available fallback in declared order. -/
theorem C5_amended_witness :
    Orchestrator.resolve_port 8000 Orchestrator.apiFallbackPorts
        (fun p => p == 8002) = some 8002 ∧
    (((fun p : Nat => p == 8002) 8000 = true ∧ (8002 : Nat) = 8000) ∨
      ((fun p : Nat => p == 8002) 8000 = false ∧
        (fun p : Nat => p == 8002) 8002 = true ∧
        ∃ l₁ l₂, Orchestrator.apiFallbackPorts = l₁ ++ 8002 :: l₂ ∧
          ∀ q ∈ l₁, (fun p : Nat => p == 8002) q = false)) :=
  ⟨by decide,
   C5_port_resolution_amended.1 8000 Orchestrator.apiFallbackPorts
     (fun p => p == 8002) 8002 (by decide)⟩

namespace Launcher

/-- Outcome of the `subprocess.Popen` spawn inside
`ServiceLauncher.check_ollama` (`launcher.py` lines 196-231): the OS
process was created, or creation itself raised (`FileNotFoundError` for a
missing executable, or any other exception). -/
inductive SpawnResult where
  | ok
  | fileNotFound
  | otherError
  deriving DecidableEq, Repr

/-- The post-spawn readiness poll of `check_ollama`: up to 30 one-second
attempts against the `/api/tags` endpoint, `healthy t` being the outcome of
attempt `t`. -/
def ollamaReadyWait (healthy : Nat → Bool) : Bool :=
  (List.range 30).any healthy

/-- Embedding of the spawn-and-wait portion of
`ServiceLauncher.check_ollama`: a spawn that raises is reported as failure
immediately — `FileNotFoundError` with the fatal "Ollama not found"
diagnosis — and the spawn is attempted exactly once, never retried.  The
second component counts spawn attempts. -/
def check_ollama_spawn (r : SpawnResult) (healthy : Nat → Bool) : Bool × Nat :=
  match r with
  | SpawnResult.fileNotFound => (false, 1)
  | SpawnResult.otherError => (false, 1)
  | SpawnResult.ok => (ollamaReadyWait healthy, 1)

end Launcher

namespace Orchestrator

/-- The retry loop of `ensure_api_server` (`orchestrator.py` lines
317-353): up to three attempts, each invoking `api_server.start()`;
`startRaises a` tells whether attempt `a`'s `start()` call raised an
exception (e.g. a spawn failure), and `healthyWait a` abstracts whether the
30-second health wait of attempt `a` succeeded.  An exception or a health
timeout on attempts 0 and 1 leads to a retry; only the last attempt's
failure is final.  Returns the overall outcome and the number of `start()`
invocations. -/
def apiStartLoop (startRaises healthyWait : Nat → Bool) : Nat → Nat → Bool × Nat
  | _, 0 => (false, 0)
  | a, n + 1 =>
      if startRaises a then
        if n = 0 then (false, 1)
        else
          let r := apiStartLoop startRaises healthyWait (a + 1) n
          (r.1, r.2 + 1)
      else if healthyWait a then (true, 1)
      else if n = 0 then (false, 1)
      else
        let r := apiStartLoop startRaises healthyWait (a + 1) n
        (r.1, r.2 + 1)

/-- The three-attempt start loop of `ensure_api_server`. -/
def ensure_api_server_starts (startRaises healthyWait : Nat → Bool) : Bool × Nat :=
  apiStartLoop startRaises healthyWait 0 3

end Orchestrator

/-- Claim C6 counterexample: when every `api_server.start()` call raises —
as a spawn failure such as a missing executable does —
`SystemOrchestrator.ensure_api_server` invokes `start()` three times before
returning failure: the spawn is re-attempted after the first exception,
contradicting the claim that the startup step returns failure on the first
such exception without retrying. -/
theorem C6_counterexample :
    Orchestrator.ensure_api_server_starts (fun _ => true) (fun _ => false)
      = (false, 3) := by
  rfl

/-- Claim C6 amended: `ServiceLauncher.check_ollama` reports an outright
spawn failure immediately as a fatal error with exactly one spawn attempt
and no retry; `SystemOrchestrator.ensure_api_server`, by contrast, retries
a raising `start()` and only fails after three attempts. -/
theorem C6_spawn_failure_amended :
    (∀ healthy, Launcher.check_ollama_spawn Launcher.SpawnResult.fileNotFound healthy
      = (false, 1)) ∧
    (∀ r healthy, (Launcher.check_ollama_spawn r healthy).2 = 1) ∧
    (∀ healthyWait, Orchestrator.ensure_api_server_starts (fun _ => true) healthyWait
      = (false, 3)) := by
  refine ⟨fun _ => rfl, ?_, fun _ => rfl⟩
  intro r healthy
  cases r <;> rfl

namespace Launcher

/-- Outcome of the bind attempt inside
`ServiceLauncher.check_port_available` (`launcher.py` lines 161-168): the
bind succeeded, or it raised — whether because the port is in use or
because binding was denied; the bare `except:` treats every failure
alike. -/
inductive BindOutcome where
  | ok
  | inUse
  | permissionDenied
  deriving DecidableEq, Repr

/-- Embedding of `ServiceLauncher.check_port_available`: a single local
bind-and-release; true exactly when the bind succeeds, false on any
failure.  The function performs no other action — in particular it
terminates no process, which is visible in the embedding as the absence of
any action component. -/
def check_port_available (b : BindOutcome) : Bool :=
  match b with
  | BindOutcome.ok => true
  | BindOutcome.inUse => false
  | BindOutcome.permissionDenied => false

end Launcher

namespace Orchestrator

/-- The process names `_check_port` (`orchestrator.py` line 83) is willing
to kill, compared against the lowercased reported name. -/
def pythonNames : List String :=
  ["python.exe", "pythonw.exe", "python3.exe", "python3.13.exe"]

/-- ASCII lowercasing of a reported process name, modelling Python's
`str.lower()` as applied to the names the netstat/tasklist lookup reports
(pure character-wise lowering). -/
def lowerName (s : String) : String := String.mk (s.data.map Char.toLower)

/-- Termination attempts issued from `_check_port`: an invocation of
`_kill_process_on_port` on the port. -/
inductive PortAction where
  | killPort (port : Nat)
  deriving DecidableEq, Repr

/-- Oracle environment for `SystemOrchestrator._check_port`
(`orchestrator.py` lines 56-102): the occupant reported by
`_get_process_on_port` (stable across the call's internal re-reads, so the
initial three-try resolution loop collapses), and the outcome of each of
the five bind attempts; the bind oracle already reflects any state change
caused by a kill. -/
structure CheckPortEnv where
  procInfo : Option (Nat × String)
  bindOk : Nat → Bool

/-- Embedding of `SystemOrchestrator._check_port`: if the port's occupant
is reported with a name whose lowercase form is one of `pythonNames`,
`_kill_process_on_port` is invoked on the port (followed by a bounded wait
for the occupant to disappear, not modelled since the bind oracle absorbs
it); then up to five bind attempts decide availability: true at the first
successful bind, false when all five fail. -/
def check_port (port : Nat) (env : CheckPortEnv) : Bool × List PortAction :=
  let actions :=
    match env.procInfo with
    | some (_, name) =>
        if lowerName name ∈ pythonNames then [PortAction.killPort port] else []
    | none => []
  ((List.range 5).any env.bindOk, actions)

end Orchestrator

/-- Claim C7 counterexample: checking port 8501 while a process named
"python.exe" holds it makes `SystemOrchestrator._check_port` invoke
`_kill_process_on_port` — the availability check attempts to terminate a
process, contradicting the claim that checking whether a port is free has
no side effect beyond transient socket creation. -/
theorem C7_counterexample :
    (Orchestrator.check_port 8501
        { procInfo := some (77, "python.exe"), bindOk := fun _ => true }).2
      = [Orchestrator.PortAction.killPort 8501] := by
  rfl

/-- Claim C7 amended: `ServiceLauncher.check_port_available` is a pure
bind-and-release — true exactly when the bind succeeds, false for any bind
failure including permission denied, with no termination action —
whereas `SystemOrchestrator._check_port` may invoke `_kill_process_on_port`
on a python-named occupant before its bind retries; on a port with no
reported occupant it issues no termination and returns the outcome of its
five bind attempts. -/
theorem C7_is_free_amended :
    Launcher.check_port_available Launcher.BindOutcome.ok = true ∧
    Launcher.check_port_available Launcher.BindOutcome.inUse = false ∧
    Launcher.check_port_available Launcher.BindOutcome.permissionDenied = false ∧
    (∀ port (env : Orchestrator.CheckPortEnv), env.procInfo = none →
      Orchestrator.check_port port env = ((List.range 5).any env.bindOk, [])) ∧
    (Orchestrator.check_port 8501
        { procInfo := some (77, "python.exe"), bindOk := fun _ => true }).2
      ≠ [] := by
  refine ⟨rfl, rfl, rfl, ?_, by decide⟩
  intro port env h
  unfold Orchestrator.check_port
  rw [h]

/-- Witness for C7 amended: a port with no reported occupant, all five
binds failing — the check reports unavailable with no termination. -/
theorem C7_amended_witness :
    ((none : Option (Nat × String)) = none) ∧
    Orchestrator.check_port 8080 { procInfo := none, bindOk := fun _ => false }
      = ((List.range 5).any (fun _ => false), []) :=
  ⟨rfl, C7_is_free_amended.2.2.2.1 8080
    { procInfo := none, bindOk := fun _ => false } rfl⟩

/-- Claim C10 counterexample: a port occupied by a process reported as
"Python.exe" — a name that is not one of the four listed strings — still
triggers the kill attempt, because the source guard compares
`name.lower()` against the list: the claim's literal name condition is too
strict. -/
theorem C10_counterexample :
    (Orchestrator.check_port 8000
        { procInfo := some (123, "Python.exe"), bindOk := fun _ => false }).2
      = [Orchestrator.PortAction.killPort 8000] ∧
    (Orchestrator.pythonNames.contains "Python.exe") = false := by
  exact ⟨by decide, by decide⟩

/-- Claim C10 amended: during `_check_port`, a kill of the occupying
process is attempted exactly when the lowercase form of the reported
process name is one of "python.exe", "pythonw.exe", "python3.exe",
"python3.13.exe"; for a port occupied by a process whose lowercased name is
not in that list, no termination is attempted on this path and the check
reports the port unavailable once its five bind retries are exhausted. -/
theorem C10_python_guard_amended :
    (∀ port (env : Orchestrator.CheckPortEnv) pid name,
      env.procInfo = some (pid, name) →
      (Orchestrator.check_port port env).2
        = (if Orchestrator.lowerName name ∈ Orchestrator.pythonNames
            then [Orchestrator.PortAction.killPort port] else [])) ∧
    (∀ port (env : Orchestrator.CheckPortEnv) pid name,
      env.procInfo = some (pid, name) →
      Orchestrator.lowerName name ∉ Orchestrator.pythonNames →
      (∀ i, env.bindOk i = false) →
      Orchestrator.check_port port env = (false, [])) := by
  constructor
  · intro port env pid name h
    unfold Orchestrator.check_port
    rw [h]
  · intro port env pid name h hname hbind
    unfold Orchestrator.check_port
    rw [h]
    dsimp only
    rw [if_neg hname]
    refine congrArg (fun b => (b, [])) ?_
    rw [List.any_eq_false]
    intro i _
    simp [hbind i]

/-- Witness for C10 amended: port 8501 occupied by "streamlit.exe" with all
five binds failing — no termination is attempted and the check reports the
port unavailable. -/
theorem C10_amended_witness :
    ((some (1234, "streamlit.exe") : Option (Nat × String))
        = some (1234, "streamlit.exe") ∧
      Orchestrator.lowerName "streamlit.exe" ∉ Orchestrator.pythonNames ∧
      ∀ i : Nat, (fun _ : Nat => false) i = false) ∧
    Orchestrator.check_port 8501
        { procInfo := some (1234, "streamlit.exe"), bindOk := fun _ => false }
      = (false, []) :=
  ⟨⟨rfl, by decide, fun _ => rfl⟩,
   C10_python_guard_amended.2 8501
     { procInfo := some (1234, "streamlit.exe"), bindOk := fun _ => false }
     1234 "streamlit.exe" rfl (by decide) (fun _ => rfl)⟩

namespace Orchestrator

/-- The port-recording head of `ensure_ui_server` (`orchestrator.py` lines
366-401): resolve the UI port (desired first, then the fallback list in
declared order) and, on success, write the resolved port back into
`config.ports.ui` (the configuration that is then saved and from which
dependents are wired); on exhaustion the step fails. -/
def ensure_ui_server_record (cfg : PortsConfig) (avail : Nat → Bool) :
    Option PortsConfig :=
  match resolve_port cfg.ui uiFallbackPorts avail with
  | some p => some { cfg with ui := p }
  | none => none

end Orchestrator

namespace UI

/-- The streamlit launch command built by `UIServer.start` (`ui.py` lines
289-299): the server port argument is the constant "--server.port=8501",
independent of the port recorded in the configuration; only the path of the
UI app varies. -/
def ui_start_cmd (uiAppPath : String) : List String :=
  ["-m", "streamlit", "run", uiAppPath,
   "--server.port=8501", "--server.address=localhost",
   "--server.headless=true", "--server.fileWatcherType=none",
   "--browser.gatherUsageStats=false"]

/-- The STREAMLIT_SERVER_PORT environment value set by `UIServer.start`
(`ui.py` line 272): the constant string "8501". -/
def streamlit_server_port_env : String := "8501"

/-- The port `UIServer.health_check` (`ui.py` line 58) connects to: the
constant 8501. -/
def ui_health_check_port : Nat := 8501

end UI

/-- Claim C9, code bug: with the desired UI port 8501 occupied by an
unreclaimable process and fallback 8502 free, `ensure_ui_server` records
port 8502 into `config.ports.ui` (and logs the fallback), but
`UIServer.start` then launches streamlit with the constant argument
"--server.port=8501" and STREAMLIT_SERVER_PORT="8501", and
`UIServer.health_check` probes the constant port 8501 — the service is not
started bound to the recorded port, so dependents wired from the
configuration would be pointed at 8502 while the UI listens on 8501.  This
contradicts the orchestrator's own log line "UI server started and healthy
on port {port_to_use}". -/
theorem C9_fallback_port_not_used :
    Orchestrator.ensure_ui_server_record { api := 8000, ui := 8501 }
        (fun p => p == 8502)
      = some { api := 8000, ui := 8502 } ∧
    "--server.port=8501" ∈ UI.ui_start_cmd "src/ui/app.py" ∧
    UI.streamlit_server_port_env = "8501" ∧
    UI.ui_health_check_port = 8501 := by
  refine ⟨by decide, by decide, rfl, rfl⟩
